import Mathlib

/-!
Verification of the kzkitty multi-source resolution layer (`kzkitty/api.py`).

The network-facing resolver functions are shallowly embedded as pure Lean
functions: each HTTP round-trip the Python code can make is supplied as an
explicit "world" value (a transport error, or a status code together with an
already-decoded body), and each resolver returns the Python-level outcome
(a value, or the exception type it raises) together with the list of network
calls it issued.  JSON values decoded by `await r.json()` are modelled by an
inductive `Json`; Python's `None` and JSON `null` coincide (as they do after
`json.loads`), so an absent dict key and an explicit `null` both read back as
`Json.null`, exactly like `dict.get`.  Python's `isinstance(x, int)` accepts
`bool` (a subclass of `int`), which `pyIntVal` reproduces.  IEEE-754 doubles
are modelled as exact rationals, with rounding made explicit where the code
converts (`timedelta(seconds=...)` rounds to microseconds half-to-even).
-/

namespace Kzkitty

/-- Decoded JSON values as `aiohttp`'s `r.json()` hands them to the Python
code. `null` doubles as Python `None` (absent dict key). Numbers keep the
int/float distinction that `json.loads` makes and `isinstance` observes;
a float's value is the exact rational value of the decoded double. -/
inductive Json where
  | null : Json
  | bool : Bool → Json
  | int : Int → Json
  | float : ℚ → Json
  | str : String → Json
  | arr : List Json → Json
  | obj : List (String × Json) → Json

/-- `d.get(k)` on a decoded JSON object: the value of the last binding of `k`
(as `json.loads` keeps the last duplicate), or `null` (Python `None`) when
the key is absent. -/
def jsonGet (fields : List (String × Json)) (k : String) : Json :=
  match fields.reverse.find? (fun p => p.1 == k) with
  | some p => p.2
  | none => Json.null

/-- Python's `isinstance(x, int)` check together with the value used when it
passes: JSON ints are Python ints, and Python `bool` is a subclass of `int`
(`True == 1`, `False == 0`), so it passes the check too. Floats, strings,
lists, dicts and `None` fail the check. -/
def pyIntVal : Json → Option Int
  | Json.int n => some n
  | Json.bool b => some (if b then 1 else 0)
  | _ => none

/-- The `isinstance(x, str) or x is None` shape check that `player_name`
undergoes: `some (some s)` for a string, `some none` for `None`, `none`
(check failed) otherwise. -/
def pyStrOrNone : Json → Option (Option String)
  | Json.str s => some (some s)
  | Json.null => some none
  | _ => none

/-- `isinstance(x, dict)`. -/
def Json.isObj : Json → Bool
  | Json.obj _ => true
  | _ => false

/-- The dynamic type of the exception a resolver raises, as a caller's
`except` clause can observe it. `apiMapError` subclasses `apiError` in the
Python source, but they are distinct dynamic types. `attributeError` is the
built-in `AttributeError` (raised by attribute access on an object without
that attribute, e.g. `.get` on a non-dict). -/
inductive PyExc where
  | steamValueError : PyExc
  | steamHTTPError : PyExc
  | steamXMLError : PyExc
  | apiError : PyExc
  | apiMapError : PyExc
  | attributeError : PyExc
deriving DecidableEq

/-- The `Mode` enum of `kzkitty/models.py`. -/
inductive Mode where
  | KZT : Mode
  | SKZ : Mode
  | VNL : Mode
deriving DecidableEq

/-- One network call, identified by the endpoint the code targets and the
data interpolated into the URL. -/
inductive Call where
  | registry : String → Call
  | vnlTiers : String → Call
  | thumbnail : String → Call
  | profile : String → Call
  | leaderboard : Int → String → String → Call
deriving DecidableEq

/-- A `datetime.datetime` as `fromisoformat` produces it: wall-clock fields
plus an optional fixed UTC offset in minutes (`none` = naive datetime,
`some 0` = `timezone.utc`). -/
structure PyDatetime where
  year : Nat
  month : Nat
  day : Nat
  hour : Nat
  minute : Nat
  second : Nat
  microsecond : Nat
  tzoffsetMinutes : Option Int
deriving DecidableEq

/-- The `Map` dataclass of `kzkitty/api.py`. -/
structure Map where
  name : String
  tier : Int
  vnl_tier : Option Int
  vnl_pro_tier : Option Int
  thumbnail : Option (List Nat)
deriving DecidableEq

/-- Round a rational to the nearest integer, ties to even: the rounding
Python's `datetime.timedelta` applies to fractional microseconds (documented
round-half-to-even). -/
def roundHalfEven (q : ℚ) : ℤ :=
  if q - ⌊q⌋ = 1 / 2 then (if ⌊q⌋ % 2 = 0 then ⌊q⌋ else ⌊q⌋ + 1) else round q

/-- `timedelta(seconds=x)` for a float `x` (given as its exact rational
value): the stored duration in integer microseconds. -/
def timedeltaMicrosOfSeconds (secs : ℚ) : ℤ :=
  roundHalfEven (secs * 1000000)

/-- `timedelta.total_seconds()` before the final float rounding: the exact
rational number of seconds of a duration stored as integer microseconds. -/
def totalSecondsExact (micros : ℤ) : ℚ :=
  (micros : ℚ) / 1000000

/-- The `PersonalBest` dataclass of `kzkitty/api.py`. `time` is the
`timedelta` in integer microseconds (the representation `timedelta` stores). -/
structure PersonalBest where
  player_name : Option String
  map_name : String
  mode : Mode
  time : ℤ
  teleports : Int
  points : Int
  date : PyDatetime
deriving DecidableEq

/-- Outcome of one HTTP GET whose body the code decodes as JSON: an
`aiohttp.ClientError` (including transport failures), or a status code with
the decoded body. -/
inductive HttpJson where
  | clientError : HttpJson
  | response : Nat → Json → HttpJson

/-- Outcome of one HTTP GET read as raw bytes. -/
inductive HttpBytes where
  | clientError : HttpBytes
  | response : Nat → List Nat → HttpBytes

/-- Outcome of one HTTP GET read as text, with the content type the server
declared. -/
inductive HttpText where
  | clientError : HttpText
  | response : Nat → String → String → HttpText

/-- The three upstream responses `map_for_name` can consume: the primary
registry, the secondary (vnl) tier provider, and the thumbnail host. -/
structure MapWorld where
  registry : HttpJson
  vnl : HttpJson
  thumbnail : HttpBytes

/-- One character of the character class `[A-za-z0-9_]` that the SOURCE
regex at `api.py:134` uses. Note the first range is `A-z` (codepoints 65 to
122), not `A-Z`: it also contains `[ \ ] ^` and the backtick. -/
def codeNameChar (c : Char) : Bool :=
  ('A' ≤ c && c ≤ 'z') || ('a' ≤ c && c ≤ 'z') || ('0' ≤ c && c ≤ '9') || c == '_'

/-- `re.fullmatch('[A-za-z0-9_]+', name)` of the source, as a Bool: nonempty
and every character in the (typo'd) class. -/
def codeNameMatch (s : String) : Bool :=
  !s.isEmpty && s.toList.all codeNameChar

/-- Modelled from the spec: one character of the charset `[A-Za-z0-9_]` that
the spec (§4.4 step 0, §8) prescribes for map names. -/
def specNameChar (c : Char) : Bool :=
  ('A' ≤ c && c ≤ 'Z') || ('a' ≤ c && c ≤ 'z') || ('0' ≤ c && c ≤ '9') || c == '_'

/-- Modelled from the spec: `name` matches `[A-Za-z0-9_]+`. -/
def specNameMatch (s : String) : Bool :=
  !s.isEmpty && s.toList.all specNameChar

/-- `_vnl_tiers_for_map` of `kzkitty/api.py` (lines 106-131), as a function
of the secondary provider's response: transport error, non-200 and non-dict
bodies give `(None, None)`; otherwise each of `tpTier` and `proTier` is kept
iff it passes `isinstance(..., int)`, independently of the other. -/
def vnl_tiers_for_map (r : HttpJson) : Option Int × Option Int :=
  match r with
  | HttpJson.clientError => (none, none)
  | HttpJson.response status body =>
    if status ≠ 200 then (none, none)
    else
      match body with
      | Json.obj fields =>
        (pyIntVal (jsonGet fields "tpTier"), pyIntVal (jsonGet fields "proTier"))
      | _ => (none, none)

/-- The thumbnail step of `map_for_name` (lines 166-179): bytes on a 200,
absent on any other status or on a transport error. -/
def thumbnailOf (r : HttpBytes) : Option (List Nat) :=
  match r with
  | HttpBytes.clientError => none
  | HttpBytes.response status body => if status = 200 then some body else none

/-- `map_for_name` of `kzkitty/api.py` (lines 133-182). Returns the Python
outcome (the `Map`, or the exception type raised) and the list of network
calls issued, in order. -/
def map_for_name (w : MapWorld) (name : String) (mode : Mode) :
    Except PyExc Map × List Call :=
  if codeNameMatch name then
    match w.registry with
    | HttpJson.clientError => (Except.error PyExc.apiError, [Call.registry name])
    | HttpJson.response status body =>
      if status ≠ 200 then (Except.error PyExc.apiError, [Call.registry name])
      else
        match body with
        | Json.null => (Except.error PyExc.apiMapError, [Call.registry name])
        | Json.obj fields =>
          match pyIntVal (jsonGet fields "difficulty") with
          | none => (Except.error PyExc.apiError, [Call.registry name])
          | some tier =>
            let vp : Option Int × Option Int :=
              if mode = Mode.VNL then vnl_tiers_for_map w.vnl else (none, none)
            let vcalls : List Call :=
              if mode = Mode.VNL then [Call.vnlTiers name] else []
            (Except.ok { name := name, tier := tier, vnl_tier := vp.1,
                         vnl_pro_tier := vp.2,
                         thumbnail := thumbnailOf w.thumbnail },
             Call.registry name :: vcalls ++ [Call.thumbnail name])
        | _ => (Except.error PyExc.apiError, [Call.registry name])
  else
    (Except.error PyExc.apiMapError, [])

/-- An XML element tree as `xml.etree.ElementTree.fromstring` produces it:
tag, text content, and the list of direct children in document order. -/
inductive XmlElem where
  | elem : String → Option String → List XmlElem → XmlElem

/-- The element's tag. -/
def XmlElem.tag : XmlElem → String
  | XmlElem.elem t _ _ => t

/-- The element's `.text` attribute. -/
def XmlElem.text : XmlElem → Option String
  | XmlElem.elem _ tx _ => tx

/-- `elem.find(t)`: the first DIRECT child whose tag is `t` (ElementTree's
`find` does not search the root itself nor grandchildren). -/
def XmlElem.find (e : XmlElem) (t : String) : Option XmlElem :=
  match e with
  | XmlElem.elem _ _ cs => cs.find? (fun c => c.tag == t)

/-- The value of a nonempty string of ASCII decimal digits, `none` otherwise. -/
def digitsToNat (cs : List Char) : Option Nat :=
  match cs with
  | [] => none
  | _ =>
    if cs.all Char.isDigit then
      some (cs.foldl (fun a c => 10 * a + (c.toNat - 48)) 0)
    else
      none

/-- `str.strip()`: drop whitespace from both ends of a character list. -/
def pyStrip (cs : List Char) : List Char :=
  ((cs.dropWhile Char.isWhitespace).reverse.dropWhile Char.isWhitespace).reverse

/-- Python's `int(s)` on the decimal strings the identity provider emits:
surrounding whitespace stripped, an optional sign, then decimal digits;
`none` models the `ValueError` Python raises otherwise. (Underscore digit
separators and non-ASCII digits, which CPython also accepts, are outside
this model; the theorems below only ever need it on plain decimals.) -/
def pyIntOfString (s : String) : Option Int :=
  match pyStrip s.toList with
  | '-' :: rest => (digitsToNat rest).map (fun n => -(n : Int))
  | '+' :: rest => (digitsToNat rest).map (fun n => (n : Int))
  | cs => (digitsToNat cs).map (fun n => (n : Int))

/-- `_get_steam_profile` of `kzkitty/api.py` (lines 50-67), as a function of
the response and of the XML parser (`ElementTree.fromstring`, supplied as a
parameter; `none` models a `ParseError`): any transport error, non-200
status or content type other than `text/xml` is `SteamHTTPError`; a body
that fails to parse is `SteamXMLError`. -/
def get_steam_profile (fromstring : String → Option XmlElem) (r : HttpText) :
    Except PyExc XmlElem :=
  match r with
  | HttpText.clientError => Except.error PyExc.steamHTTPError
  | HttpText.response status ctype body =>
    if status ≠ 200 ∨ ctype ≠ "text/xml" then Except.error PyExc.steamHTTPError
    else
      match fromstring body with
      | none => Except.error PyExc.steamXMLError
      | some x => Except.ok x

/-- The result of `urllib.parse.urlparse` as the code consumes it: the
network location (host) and the path. Supplied as a parameter function in
theorems, since only these two components are read. -/
structure ParsedUrl where
  netloc : String
  path : String

/-- `steamid64_for_profile` of `kzkitty/api.py` (lines 69-84). `urlparse`
and `fromstring` stand for the stdlib functions of those names; `w` maps
each URL the code could GET to that GET's outcome. Returns the outcome and
the network calls issued. -/
def steamid64_for_profile (urlparse : String → ParsedUrl)
    (fromstring : String → Option XmlElem) (w : String → HttpText)
    (url : String) : Except PyExc Int × List Call :=
  let u := urlparse url
  if u.netloc ≠ "steamcommunity.com" then
    (Except.error PyExc.steamValueError, [])
  else
    let fetched := "https://steamcommunity.com" ++ u.path ++ "?xml=1"
    match get_steam_profile fromstring (w fetched) with
    | Except.error e => (Except.error e, [Call.profile fetched])
    | Except.ok xml =>
      match xml.find "steamID64" with
      | none => (Except.error PyExc.steamXMLError, [Call.profile fetched])
      | some el =>
        match el.text with
        | none => (Except.error PyExc.steamXMLError, [Call.profile fetched])
        | some t =>
          match pyIntOfString t with
          | none => (Except.error PyExc.steamXMLError, [Call.profile fetched])
          | some n => (Except.ok n, [Call.profile fetched])

/-- The mode-to-endpoint-alias dict of `pbs_for_steamid64` (lines 186-187). -/
def modeAlias : Mode → String
  | Mode.KZT => "kz_timer"
  | Mode.SKZ => "kz_simple"
  | Mode.VNL => "kz_vanilla"

/-- The per-element field TYPE checks of `pbs_for_steamid64` (lines 209-220),
on one leaderboard object's fields: `player_name` a string or absent, `time`
a float, `teleports` and `points` ints (Python ints, so bools also pass),
`created_on` a string. (Whether `created_on` then parses as a date is the
separate `fromisoformat` step.) -/
def entryTypeOk (fields : List (String × Json)) : Bool :=
  (pyStrOrNone (jsonGet fields "player_name")).isSome
  && (match jsonGet fields "time" with
      | Json.float _ => true
      | _ => false)
  && (pyIntVal (jsonGet fields "teleports")).isSome
  && (pyIntVal (jsonGet fields "points")).isSome
  && (match jsonGet fields "created_on" with
      | Json.str _ => true
      | _ => false)

/-- The FULL per-element validation of `pbs_for_steamid64` on one object's
fields: the type checks of `entryTypeOk` AND, when `created_on` is a
string, that string parsing as an ISO-8601 date — `fromisoformat` not
raising `ValueError` (lines 223-227). An element fails the claim's checks
exactly when this is `false`. -/
def entryOk (fromiso : String → Option PyDatetime)
    (fields : List (String × Json)) : Bool :=
  entryTypeOk fields
  && (match jsonGet fields "created_on" with
      | Json.str s => (fromiso s).isSome
      | _ => false)

/-- The body of the `for item in json` loop of `pbs_for_steamid64` (lines
208-233) on one list element. `fromiso` stands for `datetime.fromisoformat`
(`none` models its `ValueError`). A non-dict element has no `.get`
attribute, so Python raises `AttributeError` at line 209, uncaught; a failed
shape or type check raises `APIError`; otherwise the element becomes a
`PersonalBest` whose `date` is the parsed datetime with its tzinfo REPLACED
by UTC (wall clock kept, any parsed offset discarded, line 228). -/
def pbOfItem (fromiso : String → Option PyDatetime) (map_name : String)
    (mode : Mode) (item : Json) : Except PyExc PersonalBest :=
  match item with
  | Json.obj fields =>
    match pyStrOrNone (jsonGet fields "player_name") with
    | none => Except.error PyExc.apiError
    | some player_name =>
      match jsonGet fields "time", pyIntVal (jsonGet fields "teleports"),
            pyIntVal (jsonGet fields "points"), jsonGet fields "created_on" with
      | Json.float t, some teleports, some points, Json.str created_on =>
        match fromiso created_on with
        | none => Except.error PyExc.apiError
        | some d =>
          Except.ok { player_name := player_name, map_name := map_name,
                      mode := mode, time := timedeltaMicrosOfSeconds t,
                      teleports := teleports, points := points,
                      date := { d with tzoffsetMinutes := some 0 } }
      | _, _, _, _ => Except.error PyExc.apiError
  | _ => Except.error PyExc.attributeError

/-- The whole `for item in json` loop: the first element that raises aborts
the call with that exception; otherwise the records in order. -/
def pbsOfItems (fromiso : String → Option PyDatetime) (map_name : String)
    (mode : Mode) : List Json → Except PyExc (List PersonalBest)
  | [] => Except.ok []
  | item :: rest =>
    match pbOfItem fromiso map_name mode item with
    | Except.error e => Except.error e
    | Except.ok pb =>
      match pbsOfItems fromiso map_name mode rest with
      | Except.error e => Except.error e
      | Except.ok pbs => Except.ok (pb :: pbs)

/-- `pbs_for_steamid64` of `kzkitty/api.py` (lines 184-234), as a function of
the leaderboard response `r`. Transport errors and non-200 statuses raise
`APIError`; a body that is not a list raises `APIError`; otherwise the loop
above runs. Returns the outcome and the calls issued. -/
def pbs_for_steamid64 (fromiso : String → Option PyDatetime) (r : HttpJson)
    (steamid64 : Int) (map_name : String) (mode : Mode) :
    Except PyExc (List PersonalBest) × List Call :=
  let calls := [Call.leaderboard steamid64 map_name (modeAlias mode)]
  match r with
  | HttpJson.clientError => (Except.error PyExc.apiError, calls)
  | HttpJson.response status body =>
    if status ≠ 200 then (Except.error PyExc.apiError, calls)
    else
      match body with
      | Json.arr items => (pbsOfItems fromiso map_name mode items, calls)
      | _ => (Except.error PyExc.apiError, calls)

/-- A rational is a binary64 value of the binade `[8, 16)` (where `12.345`
lives): an integer significand of 53 bits scaled by `2 ^ -49`. -/
def isDouble8_16 (x : ℚ) : Prop :=
  ∃ M : ℤ, 2 ^ 52 ≤ M ∧ M < 2 ^ 53 ∧ x = (M : ℚ) / 2 ^ 49

/-- `x` is a nearest binary64 neighbour of the real value `q` within the
binade `[8, 16)`: a double of that binade within half an ulp (`2 ^ -50`) of
`q`. IEEE-754 round-to-nearest returns exactly such an `x` (unique when `q`
is not a tie midpoint). -/
def isNearestDouble8_16 (q x : ℚ) : Prop :=
  isDouble8_16 x ∧ |x - q| ≤ 1 / 2 ^ 50

/-- A fully failing world: every provider unreachable. -/
def deadWorld : MapWorld :=
  { registry := HttpJson.clientError, vnl := HttpJson.clientError,
    thumbnail := HttpBytes.clientError }

theorem roundHalfEven_eq_of_abs_lt (q : ℚ) (n : ℤ) (h : |q - (n : ℚ)| < 1 / 2) :
    roundHalfEven q = n := by
  rw [abs_lt] at h
  obtain ⟨h1, h2⟩ := h
  have hfr : q - (⌊q⌋ : ℚ) ≠ 1 / 2 := by
    intro he
    have hl : (n : ℚ) - 1 < (⌊q⌋ : ℚ) := by linarith
    have hr : ((⌊q⌋ : ℚ)) < (n : ℚ) := by linarith
    have hl2 : n - 1 < ⌊q⌋ := by exact_mod_cast hl
    have hr2 : ⌊q⌋ < n := by exact_mod_cast hr
    omega
  rw [roundHalfEven, if_neg hfr, round_eq]
  refine Int.floor_eq_iff.mpr ⟨by linarith, by linarith⟩

/-- There is exactly one binary64 value within half an ulp of `12.345`. -/
theorem nearest12345_unique (d : ℚ) (h : isNearestDouble8_16 (12345 / 1000) d) :
    d = (6949617174986097 : ℚ) / 2 ^ 49 := by
  obtain ⟨⟨M, _, _, rfl⟩, habs⟩ := h
  rw [abs_le] at habs
  obtain ⟨h1, h2⟩ := habs
  have hub : (M : ℚ) * 1000 ≤ 6949617174986097140 := by
    have h49 : (0 : ℚ) < 2 ^ 49 := by positivity
    nlinarith [h2]
  have hlb : (6949617174986096140 : ℚ) ≤ (M : ℚ) * 1000 := by
    have h49 : (0 : ℚ) < 2 ^ 49 := by positivity
    nlinarith [h1]
  have hub2 : M * 1000 ≤ 6949617174986097140 := by exact_mod_cast hub
  have hlb2 : (6949617174986096140 : ℤ) ≤ M * 1000 := by exact_mod_cast hlb
  have hM : M = 6949617174986097 := by omega
  rw [hM]
  norm_num

/-- C8: the float-seconds-to-duration conversion is lossless for `12.345`.
For the binary64 value `d` that the literal `12.345` denotes (the unique
double within half an ulp of `12345/1000`), `timedelta(seconds=d)` stores
exactly `12345000` microseconds, and `total_seconds()` — the correctly
rounded double of the exact ratio `12345000 / 10^6` — is again exactly `d`
(and nothing else), so the value re-serializes to `12.345` with no lossy
rounding. -/
theorem c8_time_roundtrip_lossless (d : ℚ)
    (h : isNearestDouble8_16 (12345 / 1000) d) :
    timedeltaMicrosOfSeconds d = 12345000 ∧
    isNearestDouble8_16 (totalSecondsExact 12345000) d ∧
    (∀ d2 : ℚ, isNearestDouble8_16 (totalSecondsExact 12345000) d2 → d2 = d) := by
  have hd := nearest12345_unique d h
  have htot : totalSecondsExact 12345000 = 12345 / 1000 := by
    norm_num [totalSecondsExact]
  refine ⟨?_, ?_, ?_⟩
  · subst hd
    unfold timedeltaMicrosOfSeconds
    apply roundHalfEven_eq_of_abs_lt
    rw [abs_lt]
    constructor <;> norm_num
  · rw [htot]; exact h
  · intro d2 h2
    rw [htot] at h2
    rw [nearest12345_unique d2 h2, hd]

/-- Witness for C8 at the concrete double nearest to `12.345`,
`6949617174986097 * 2 ^ -49`. -/
theorem c8_time_roundtrip_lossless_witness :
    isNearestDouble8_16 (12345 / 1000) ((6949617174986097 : ℚ) / 2 ^ 49) ∧
    timedeltaMicrosOfSeconds ((6949617174986097 : ℚ) / 2 ^ 49) = 12345000 := by
  have hn : isNearestDouble8_16 (12345 / 1000) ((6949617174986097 : ℚ) / 2 ^ 49) := by
    refine ⟨⟨6949617174986097, by norm_num, by norm_num, by norm_num⟩, ?_⟩
    rw [abs_le]
    constructor <;> norm_num
  exact ⟨hn, (c8_time_roundtrip_lossless _ hn).1⟩

/-- C1 (code bug): the source regex at `api.py:134` is `[A-za-z0-9_]+` — the
range `A-z` instead of `A-Z` — so the name `"^"` (also `"["`, `"]"`,
a backslash or a backtick), which does NOT match the spec's charset
`[A-Za-z0-9_]+`, is accepted by `map_for_name`, which then issues the
registry network call instead of raising the map-specific input error with
no network traffic. -/
theorem c1_invalid_name_reaches_network :
    specNameMatch "^" = false ∧
    map_for_name deadWorld "^" Mode.KZT
      = (Except.error PyExc.apiError, [Call.registry "^"]) := by
  exact ⟨rfl, rfl⟩

/-- The world of the C2 counterexample: a healthy registry record of tier 3,
and a secondary-provider body whose `tpTier` is a well-typed integer while
`proTier` is a string. -/
def c2World : MapWorld :=
  { registry := HttpJson.response 200 (Json.obj [("difficulty", Json.int 3)]),
    vnl := HttpJson.response 200
      (Json.obj [("tpTier", Json.int 4), ("proTier", Json.str "x")]),
    thumbnail := HttpBytes.clientError }

/-- C2 counterexample: with `proTier` ill-typed but `tpTier` a well-typed
integer, `map_for_name` in VNL mode returns `vnl_tier = some 4` — NOT both
secondary ratings absent, contradicting the claim's "in particular"
sentence. -/
theorem c2_per_field_counterexample :
    (map_for_name c2World "kz_test" Mode.VNL).1
      = Except.ok { name := "kz_test", tier := 3, vnl_tier := some 4,
                    vnl_pro_tier := none, thumbnail := none } ∧
    some 4 ≠ (none : Option Int) := by
  exact ⟨rfl, by decide⟩

/-- C2 as amended: in VNL mode, with a healthy primary-registry record, the
secondary tier-rating step never aborts the resolution — `map_for_name`
returns a `Map` with `tier` populated whatever the secondary response was;
a transport error, a non-200 status or a non-dict body degrade BOTH
secondary ratings to absent; a `tpTier` or `proTier` field of the wrong
type degrades only THAT rating to absent, independently of the other. -/
theorem c2_amended_vnl_failure_degrades (v : HttpJson) (tb : HttpBytes)
    (name : String) (fields : List (String × Json)) (d : Int)
    (hname : codeNameMatch name = true)
    (hdiff : pyIntVal (jsonGet fields "difficulty") = some d) :
    (map_for_name { registry := HttpJson.response 200 (Json.obj fields),
                    vnl := v, thumbnail := tb } name Mode.VNL).1
      = Except.ok { name := name, tier := d,
                    vnl_tier := (vnl_tiers_for_map v).1,
                    vnl_pro_tier := (vnl_tiers_for_map v).2,
                    thumbnail := thumbnailOf tb } ∧
    (v = HttpJson.clientError → vnl_tiers_for_map v = (none, none)) ∧
    (∀ s b, v = HttpJson.response s b → s ≠ 200 →
      vnl_tiers_for_map v = (none, none)) ∧
    (∀ s b, v = HttpJson.response s b → b.isObj = false →
      vnl_tiers_for_map v = (none, none)) ∧
    (∀ vf : List (String × Json), pyIntVal (jsonGet vf "tpTier") = none →
      (vnl_tiers_for_map (HttpJson.response 200 (Json.obj vf))).1 = none) ∧
    (∀ vf : List (String × Json), pyIntVal (jsonGet vf "proTier") = none →
      (vnl_tiers_for_map (HttpJson.response 200 (Json.obj vf))).2 = none) := by
  refine ⟨?_, ?_, ?_, ?_, ?_, ?_⟩
  · simp [map_for_name, hname, hdiff]
  · intro hv
    subst hv
    rfl
  · intro s b hv hs
    subst hv
    simp [vnl_tiers_for_map, hs]
  · intro s b hv hb
    subst hv
    cases b <;> simp_all [vnl_tiers_for_map, Json.isObj]
  · intro vf h
    simp [vnl_tiers_for_map, h]
  · intro vf h
    simp [vnl_tiers_for_map, h]

/-- Witness for C2's amended theorem: a secondary body with `tpTier = 4` and
an ill-typed `proTier`, on the healthy registry record of tier 3. -/
theorem c2_amended_vnl_failure_degrades_witness :
    codeNameMatch "kz_test" = true ∧
    (map_for_name c2World "kz_test" Mode.VNL).1
      = Except.ok { name := "kz_test", tier := 3, vnl_tier := some 4,
                    vnl_pro_tier := none, thumbnail := none } := by
  refine ⟨by decide, ?_⟩
  exact (c2_amended_vnl_failure_degrades
    (HttpJson.response 200
      (Json.obj [("tpTier", Json.int 4), ("proTier", Json.str "x")]))
    HttpBytes.clientError "kz_test" [("difficulty", Json.int 3)] 3
    (by decide) rfl).1

/-- C4: with the map name accepted, a 200 registry response whose body is
exactly JSON `null` raises `APIMapError` (the distinct "no such map"
outcome), while a 200 body that is not a dict, or a dict without a
well-typed integer `difficulty`, raises `APIError` — and those two dynamic
exception types differ. -/
theorem c4_null_distinct_from_malformed (v : HttpJson) (tb : HttpBytes)
    (name : String) (mode : Mode) (fields : List (String × Json))
    (l : List Json) (hname : codeNameMatch name = true) :
    (map_for_name { registry := HttpJson.response 200 Json.null, vnl := v,
                    thumbnail := tb } name mode).1
      = Except.error PyExc.apiMapError ∧
    (map_for_name { registry := HttpJson.response 200 (Json.arr l), vnl := v,
                    thumbnail := tb } name mode).1
      = Except.error PyExc.apiError ∧
    (pyIntVal (jsonGet fields "difficulty") = none →
      (map_for_name { registry := HttpJson.response 200 (Json.obj fields),
                      vnl := v, thumbnail := tb } name mode).1
        = Except.error PyExc.apiError) ∧
    PyExc.apiMapError ≠ PyExc.apiError := by
  refine ⟨?_, ?_, ?_, by decide⟩
  · simp [map_for_name, hname]
  · simp [map_for_name, hname]
  · intro h
    simp [map_for_name, hname, h]

/-- Witness for C4 at the name `"kz_test"` with dead side providers and a
difficulty field holding a string. -/
theorem c4_null_distinct_from_malformed_witness :
    codeNameMatch "kz_test" = true ∧
    (map_for_name { registry := HttpJson.response 200 Json.null,
                    vnl := HttpJson.clientError,
                    thumbnail := HttpBytes.clientError } "kz_test" Mode.KZT).1
      = Except.error PyExc.apiMapError := by
  refine ⟨by decide, ?_⟩
  exact (c4_null_distinct_from_malformed HttpJson.clientError
    HttpBytes.clientError "kz_test" Mode.KZT [("difficulty", Json.str "5")] []
    (by decide)).1

/-- C10: the caller-input outcome (name rejected by the validation regex)
and the "no such map" outcome (registry answered 200 with `null`) are
raised as the SAME dynamic exception type, `APIMapError`, so a caller
cannot tell them apart by exception type alone. -/
theorem c10_both_outcomes_apiMapError (w : MapWorld) (v : HttpJson)
    (tb : HttpBytes) (name : String) (mode : Mode) :
    (codeNameMatch name = false →
      map_for_name w name mode = (Except.error PyExc.apiMapError, [])) ∧
    (codeNameMatch name = true →
      (map_for_name { registry := HttpJson.response 200 Json.null, vnl := v,
                      thumbnail := tb } name mode).1
        = Except.error PyExc.apiMapError) := by
  constructor
  · intro h
    simp [map_for_name, h]
  · intro h
    simp [map_for_name, h]

/-- Witness for C10: the invalid name `"bad name"` and the valid name
`"kz_test"` with a `null` registry body both yield `APIMapError`. -/
theorem c10_both_outcomes_apiMapError_witness :
    map_for_name deadWorld "bad name" Mode.KZT
      = (Except.error PyExc.apiMapError, []) ∧
    (map_for_name { registry := HttpJson.response 200 Json.null,
                    vnl := HttpJson.clientError,
                    thumbnail := HttpBytes.clientError } "kz_test" Mode.SKZ).1
      = Except.error PyExc.apiMapError := by
  constructor
  · exact (c10_both_outcomes_apiMapError deadWorld HttpJson.clientError
      HttpBytes.clientError "bad name" Mode.KZT).1 (by decide)
  · exact (c10_both_outcomes_apiMapError deadWorld HttpJson.clientError
      HttpBytes.clientError "kz_test" Mode.SKZ).2 (by decide)

set_option linter.unnecessarySeqFocus false in
/-- C5: when the mode is not the vanilla variant, `map_for_name` never
issues a call to the secondary tier-rating provider (no `vnlTiers` call
appears in its call log, whatever the world), and any `Map` it returns has
both `vnl_tier` and `vnl_pro_tier` absent. -/
theorem c5_non_vnl_no_secondary (w : MapWorld) (name : String) (mode : Mode)
    (hmode : mode ≠ Mode.VNL) :
    (∀ s, Call.vnlTiers s ∉ (map_for_name w name mode).2) ∧
    (∀ m, (map_for_name w name mode).1 = Except.ok m →
      m.vnl_tier = none ∧ m.vnl_pro_tier = none) := by
  obtain ⟨reg, v, tb⟩ := w
  constructor
  · intro s
    unfold map_for_name
    split
    · cases reg with
      | clientError => simp
      | response status body =>
        dsimp only
        split
        · simp
        · cases body <;> simp [hmode] <;> split <;> simp [hmode]
    · simp
  · intro m hm
    unfold map_for_name at hm
    split at hm
    · cases reg with
      | clientError => simp at hm
      | response status body =>
        dsimp only at hm
        split at hm
        · simp at hm
        · cases body <;> try simp [hmode] at hm
          next fields =>
            revert hm
            split
            · intro hm
              exact absurd hm (by simp)
            · intro hm
              injection hm with h
              rw [← h]
              exact ⟨rfl, rfl⟩
    · simp at hm

/-- Witness for C5: a healthy VNL-capable world queried in KZT mode. -/
theorem c5_non_vnl_no_secondary_witness :
    Mode.KZT ≠ Mode.VNL ∧
    Call.vnlTiers "kz_test" ∉ (map_for_name c2World "kz_test" Mode.KZT).2 := by
  exact ⟨by decide,
    (c5_non_vnl_no_secondary c2World "kz_test" Mode.KZT (by decide)).1 "kz_test"⟩

/-- C6: `steamid64_for_profile` rejects any URL whose host is not
`steamcommunity.com` with `SteamValueError` before issuing any network call;
for the accepted host, a 200 `text/xml` response whose document has a
`steamID64` child with integer text resolves to exactly that integer — in
particular the document
`<profile><steamID64>76561198000000000</steamID64></profile>` resolves to
`76561198000000000`. `urlparse` and `fromstring` range over all possible
behaviours of the stdlib parsers. -/
theorem c6_identity_resolution (urlparse : String → ParsedUrl)
    (fromstring : String → Option XmlElem) (w : String → HttpText)
    (url : String) :
    ((urlparse url).netloc ≠ "steamcommunity.com" →
      steamid64_for_profile urlparse fromstring w url
        = (Except.error PyExc.steamValueError, [])) ∧
    (∀ body root el s n,
      (urlparse url).netloc = "steamcommunity.com" →
      w ("https://steamcommunity.com" ++ (urlparse url).path ++ "?xml=1")
        = HttpText.response 200 "text/xml" body →
      fromstring body = some root →
      root.find "steamID64" = some el →
      el.text = some s →
      pyIntOfString s = some n →
      (steamid64_for_profile urlparse fromstring w url).1 = Except.ok n) ∧
    (∀ body,
      (urlparse url).netloc = "steamcommunity.com" →
      w ("https://steamcommunity.com" ++ (urlparse url).path ++ "?xml=1")
        = HttpText.response 200 "text/xml" body →
      fromstring body = some (XmlElem.elem "profile" none
        [XmlElem.elem "steamID64" (some "76561198000000000") []]) →
      (steamid64_for_profile urlparse fromstring w url).1
        = Except.ok 76561198000000000) := by
  have hgen : ∀ body root el s n,
      (urlparse url).netloc = "steamcommunity.com" →
      w ("https://steamcommunity.com" ++ (urlparse url).path ++ "?xml=1")
        = HttpText.response 200 "text/xml" body →
      fromstring body = some root →
      root.find "steamID64" = some el →
      el.text = some s →
      pyIntOfString s = some n →
      (steamid64_for_profile urlparse fromstring w url).1 = Except.ok n := by
    intro body root el s n hnet hw hxml hfind htext hint
    unfold steamid64_for_profile
    simp only [hnet, hw, get_steam_profile, hxml]
    norm_num
    simp [hfind, htext, hint]
  refine ⟨?_, hgen, ?_⟩
  · intro hnet
    unfold steamid64_for_profile
    simp [hnet]
  · intro body hnet hw hxml
    exact hgen body _ (XmlElem.elem "steamID64" (some "76561198000000000") [])
      "76561198000000000" 76561198000000000 hnet hw hxml rfl rfl (by decide)

/-- Witness for C6: a constant-world run on the concrete profile document of
the claim, plus a rejected foreign-host URL. -/
theorem c6_identity_resolution_witness :
    (steamid64_for_profile
      (fun _ => { netloc := "steamcommunity.com", path := "/id/kitty" })
      (fun _ => some (XmlElem.elem "profile" none
        [XmlElem.elem "steamID64" (some "76561198000000000") []]))
      (fun _ => HttpText.response 200 "text/xml" "doc")
      "https://steamcommunity.com/id/kitty").1
      = Except.ok 76561198000000000 ∧
    steamid64_for_profile
      (fun _ => { netloc := "example.com", path := "/id/kitty" })
      (fun _ => none) (fun _ => HttpText.clientError)
      "https://example.com/id/kitty"
      = (Except.error PyExc.steamValueError, []) := by
  constructor
  · exact (c6_identity_resolution
      (fun _ => { netloc := "steamcommunity.com", path := "/id/kitty" })
      (fun _ => some (XmlElem.elem "profile" none
        [XmlElem.elem "steamID64" (some "76561198000000000") []]))
      (fun _ => HttpText.response 200 "text/xml" "doc")
      "https://steamcommunity.com/id/kitty").2.2 "doc" rfl rfl rfl
  · exact (c6_identity_resolution
      (fun _ => { netloc := "example.com", path := "/id/kitty" })
      (fun _ => none) (fun _ => HttpText.clientError)
      "https://example.com/id/kitty").1 (by decide)

theorem pbOfItem_entry_fail (fromiso : String → Option PyDatetime)
    (mn : String) (mode : Mode) (fields : List (String × Json))
    (h : entryOk fromiso fields = false) :
    pbOfItem fromiso mn mode (Json.obj fields) = Except.error PyExc.apiError := by
  simp only [pbOfItem]
  split
  · rfl
  next pn hpn =>
    split
    next t tp pts s htime htp hpts hcreated =>
      cases hiso : fromiso s with
      | none => rfl
      | some d =>
        exfalso
        rw [entryOk, entryTypeOk, hpn, htime, htp, hpts, hcreated] at h
        simp [hiso] at h
    next => rfl

theorem pbOfItem_obj_cases (fromiso : String → Option PyDatetime)
    (mn : String) (mode : Mode) (fields : List (String × Json)) :
    pbOfItem fromiso mn mode (Json.obj fields) = Except.error PyExc.apiError ∨
    ∃ pb, pbOfItem fromiso mn mode (Json.obj fields) = Except.ok pb := by
  simp only [pbOfItem]
  split
  · exact Or.inl rfl
  next pn hpn =>
    split
    next t tp pts s htime htp hpts hcreated =>
      cases hiso : fromiso s
      · exact Or.inl rfl
      · exact Or.inr ⟨_, rfl⟩
    next => exact Or.inl rfl

theorem pbOfItem_not_obj (fromiso : String → Option PyDatetime)
    (mn : String) (mode : Mode) (item : Json) (h : item.isObj = false) :
    pbOfItem fromiso mn mode item = Except.error PyExc.attributeError := by
  cases item <;> first | rfl | simp [Json.isObj] at h

theorem pbsOfItems_err_of_bad (fromiso : String → Option PyDatetime)
    (mn : String) (mode : Mode) :
    ∀ l : List Json, (∀ x ∈ l, x.isObj = true) →
    (∃ fields, Json.obj fields ∈ l ∧ entryOk fromiso fields = false) →
    pbsOfItems fromiso mn mode l = Except.error PyExc.apiError := by
  intro l
  induction l with
  | nil =>
    intro _ hbad
    obtain ⟨f, hf, _⟩ := hbad
    cases hf
  | cons x rest ih =>
    intro hobj hbad
    obtain ⟨f, hmem, hbadf⟩ := hbad
    rcases List.mem_cons.mp hmem with hx | hrest
    · rw [pbsOfItems, ← hx, pbOfItem_entry_fail fromiso mn mode f hbadf]
    · have hxobj := hobj x (List.mem_cons_self x rest)
      have hrec := ih (fun y hy => hobj y (List.mem_cons_of_mem x hy))
        ⟨f, hrest, hbadf⟩
      cases x <;> simp [Json.isObj] at hxobj
      next xf =>
        rcases pbOfItem_obj_cases fromiso mn mode xf with herr | ⟨pb, hok⟩
        · rw [pbsOfItems, herr]
        · rw [pbsOfItems, hok, hrec]

theorem pbsOfItems_attrerr (fromiso : String → Option PyDatetime)
    (mn : String) (mode : Mode) :
    ∀ (pre : List Json) (item : Json) (rest : List Json),
    (∀ x ∈ pre, ∃ pb, pbOfItem fromiso mn mode x = Except.ok pb) →
    item.isObj = false →
    pbsOfItems fromiso mn mode (pre ++ item :: rest)
      = Except.error PyExc.attributeError := by
  intro pre
  induction pre with
  | nil =>
    intro item rest _ hitem
    rw [List.nil_append, pbsOfItems, pbOfItem_not_obj fromiso mn mode item hitem]
  | cons x pre ih =>
    intro item rest hok hitem
    obtain ⟨pb, hpb⟩ := hok x (List.mem_cons_self x pre)
    rw [List.cons_append, pbsOfItems, hpb,
      ih item rest (fun y hy => hok y (List.mem_cons_of_mem x hy)) hitem]

/-- C3: on a 200 leaderboard response that is a JSON list of objects, a
single element failing any of the per-element checks — player_name neither
string nor absent, time not a float, teleports or points not an int,
created_on not a string, or created_on a string that is not ISO-8601 (so
`fromisoformat` raises `ValueError`, caught and re-raised at lines 223-227)
— makes `pbs_for_steamid64` raise `APIError`: the outcome carries zero
records, never a partial list of the valid elements. -/
theorem c3_bad_entry_aborts_batch (fromiso : String → Option PyDatetime)
    (sid : Int) (mn : String) (mode : Mode) (l : List Json)
    (hobj : ∀ x ∈ l, x.isObj = true)
    (hbad : ∃ fields, Json.obj fields ∈ l ∧ entryOk fromiso fields = false) :
    (pbs_for_steamid64 fromiso (HttpJson.response 200 (Json.arr l))
      sid mn mode).1 = Except.error PyExc.apiError := by
  simp [pbs_for_steamid64, pbsOfItems_err_of_bad fromiso mn mode l hobj hbad]

/-- A leaderboard element with every field well-typed and well-formed. -/
def goodFields : List (String × Json) :=
  [("player_name", Json.str "kitty"), ("time", Json.float (12345 / 1000)),
   ("teleports", Json.int 2), ("points", Json.int 800),
   ("created_on", Json.str "2020-01-02T03:04:05")]

/-- A leaderboard element whose `teleports` is a string: well-typed
otherwise, it fails exactly the type check the claim singles out. -/
def badTeleportsFields : List (String × Json) :=
  [("player_name", Json.str "kitty"), ("time", Json.float (12345 / 1000)),
   ("teleports", Json.str "2"), ("points", Json.int 800),
   ("created_on", Json.str "2020-01-02T03:04:05")]

/-- A fixed naive parse result standing in for `datetime.fromisoformat`. -/
def dt0 : PyDatetime :=
  { year := 2020, month := 1, day := 2, hour := 3, minute := 4, second := 5,
    microsecond := 0, tzoffsetMinutes := none }

/-- A `fromisoformat` stand-in that parses exactly the good timestamp and
rejects everything else. -/
def isoParser : String → Option PyDatetime :=
  fun s => if s = "2020-01-02T03:04:05" then some dt0 else none

/-- A leaderboard element whose fields are all well-typed but whose
`created_on` string is not an ISO-8601 date. -/
def badIsoFields : List (String × Json) :=
  [("player_name", Json.str "kitty"), ("time", Json.float (12345 / 1000)),
   ("teleports", Json.int 2), ("points", Json.int 800),
   ("created_on", Json.str "banana")]

/-- Witness for C3, exercising both failure shapes: a list whose second
element has a string `teleports` aborts with `APIError`, and so does a list
whose second element has a non-ISO-8601 `created_on` string. -/
theorem c3_bad_entry_aborts_batch_witness :
    (pbs_for_steamid64 isoParser
      (HttpJson.response 200
        (Json.arr [Json.obj goodFields, Json.obj badTeleportsFields]))
      76561198000000000 "kz_test" Mode.KZT).1 = Except.error PyExc.apiError ∧
    (pbs_for_steamid64 isoParser
      (HttpJson.response 200
        (Json.arr [Json.obj goodFields, Json.obj badIsoFields]))
      76561198000000000 "kz_test" Mode.KZT).1 = Except.error PyExc.apiError := by
  constructor
  · exact c3_bad_entry_aborts_batch isoParser 76561198000000000
      "kz_test" Mode.KZT [Json.obj goodFields, Json.obj badTeleportsFields]
      (by decide)
      ⟨badTeleportsFields,
       List.mem_cons_of_mem _ (List.mem_cons_self _ _), by decide⟩
  · exact c3_bad_entry_aborts_batch isoParser 76561198000000000
      "kz_test" Mode.KZT [Json.obj goodFields, Json.obj badIsoFields]
      (by decide)
      ⟨badIsoFields,
       List.mem_cons_of_mem _ (List.mem_cons_self _ _), by decide⟩

/-- C7: whenever a leaderboard element passes the type checks and its
`created_on` string parses to a datetime `dt`, the `PersonalBest` built from
it carries `dt` with its timezone REPLACED by UTC: every wall-clock field is
kept verbatim and the tz offset is set to `some 0`, whatever offset (if any)
was encoded in the string — the offset is discarded, never converted.
`pbOfItem` is the body of the per-element loop of `pbs_for_steamid64`. -/
theorem c7_created_on_coerced_to_utc (fromiso : String → Option PyDatetime)
    (mn : String) (mode : Mode) (fields : List (String × Json)) (s : String)
    (dt : PyDatetime) (pb : PersonalBest)
    (hs : jsonGet fields "created_on" = Json.str s)
    (hdt : fromiso s = some dt)
    (hpb : pbOfItem fromiso mn mode (Json.obj fields) = Except.ok pb) :
    pb.date.year = dt.year ∧ pb.date.month = dt.month ∧
    pb.date.day = dt.day ∧ pb.date.hour = dt.hour ∧
    pb.date.minute = dt.minute ∧ pb.date.second = dt.second ∧
    pb.date.microsecond = dt.microsecond ∧
    pb.date.tzoffsetMinutes = some 0 := by
  simp only [pbOfItem] at hpb
  split at hpb
  · exact absurd hpb (by simp)
  next pn hpn =>
    split at hpb
    next t tp pts s2 htime htp hpts hcreated =>
      rw [hs] at hcreated
      injection hcreated with hss
      rw [← hss, hdt] at hpb
      injection hpb with hpb
      rw [← hpb]
      exact ⟨rfl, rfl, rfl, rfl, rfl, rfl, rfl, rfl⟩
    next => exact absurd hpb (by simp)

/-- A parse result carrying a non-UTC offset (+05:30), as `fromisoformat`
would return for an aware timestamp string. -/
def dtOffset : PyDatetime :=
  { year := 2020, month := 1, day := 2, hour := 3, minute := 4, second := 5,
    microsecond := 6, tzoffsetMinutes := some 330 }

/-- Witness for C7: an element parsed to a datetime with offset +05:30 comes
out with the same wall clock and tz forced to UTC. -/
theorem c7_created_on_coerced_to_utc_witness :
    pbOfItem (fun _ => some dtOffset) "kz_test" Mode.KZT (Json.obj goodFields)
      = Except.ok { player_name := some "kitty", map_name := "kz_test",
                    mode := Mode.KZT, time := 12345000, teleports := 2,
                    points := 800,
                    date := { dtOffset with tzoffsetMinutes := some 0 } } ∧
    ({ dtOffset with tzoffsetMinutes := some 0 } : PyDatetime).hour
      = dtOffset.hour ∧
    ({ dtOffset with tzoffsetMinutes := some 0 } : PyDatetime).tzoffsetMinutes
      = some 0 := by
  have hpb : pbOfItem (fun _ => some dtOffset) "kz_test" Mode.KZT
      (Json.obj goodFields)
      = Except.ok { player_name := some "kitty", map_name := "kz_test",
                    mode := Mode.KZT, time := 12345000, teleports := 2,
                    points := 800,
                    date := { dtOffset with tzoffsetMinutes := some 0 } } := by
    have ht : timedeltaMicrosOfSeconds (12345 / 1000) = 12345000 := by
      apply roundHalfEven_eq_of_abs_lt
      norm_num
    simp [pbOfItem, goodFields, jsonGet, pyStrOrNone, pyIntVal, ht]
  refine ⟨hpb, ?_, rfl⟩
  exact (c7_created_on_coerced_to_utc (fun _ => some dtOffset) "kz_test"
    Mode.KZT goodFields "2020-01-02T03:04:05" dtOffset _ rfl rfl hpb).2.2.2.1

/-- C9: a leaderboard list element that is not a JSON object (a number, a
string, a list, a boolean or `null` — all of which lack a `.get` attribute)
makes `pbs_for_steamid64` raise an UNCAUGHT `AttributeError` at the first
field access, not the documented `APIError`: the element's shape is never
checked before `.get` is called. (The elements before it must themselves
convert cleanly, or their own exception would fire first.) -/
theorem c9_non_object_element_attributeerror (fromiso : String → Option PyDatetime)
    (sid : Int) (mn : String) (mode : Mode) (pre : List Json) (item : Json)
    (rest : List Json)
    (hok : ∀ x ∈ pre, ∃ pb, pbOfItem fromiso mn mode x = Except.ok pb)
    (hitem : item.isObj = false) :
    (pbs_for_steamid64 fromiso
      (HttpJson.response 200 (Json.arr (pre ++ item :: rest)))
      sid mn mode).1 = Except.error PyExc.attributeError ∧
    pbOfItem fromiso mn mode item = Except.error PyExc.attributeError ∧
    PyExc.attributeError ≠ PyExc.apiError := by
  refine ⟨?_, pbOfItem_not_obj fromiso mn mode item hitem, by decide⟩
  simp [pbs_for_steamid64,
    pbsOfItems_attrerr fromiso mn mode pre item rest hok hitem]

/-- Witness for C9: a singleton list holding the number `7`. -/
theorem c9_non_object_element_attributeerror_witness :
    (pbs_for_steamid64 (fun _ => some dt0)
      (HttpJson.response 200 (Json.arr [Json.int 7]))
      76561198000000000 "kz_test" Mode.VNL).1
      = Except.error PyExc.attributeError := by
  exact (c9_non_object_element_attributeerror (fun _ => some dt0)
    76561198000000000 "kz_test" Mode.VNL [] (Json.int 7) []
    (List.forall_mem_nil _) rfl).1

end Kzkitty
